import Mathlib

/-!
Verification development for the camcap repository (V4L2 capture + DRM/KMS
display). The definitions below are a shallow embedding of the C++ sources
`src/capture.cpp` and `src/display.cpp`: device/driver behaviour (ioctl
results, mmap results, property-id lookups, commit results) is passed in as
explicit oracle parameters, memory mappings are abstracted to mapped/unmapped
flags, and machine integers are modelled as Nat (all the modelled quantities
are unsigned counters, sizes and ids that stay far from wrap-around in the
modelled flows).
-/

/-! ## Capture side: data model (capture.cpp / capture.hpp) -/

/-- `VIDEO_MAX_PLANES` from `linux/videodev2.h`: the fixed size of the
per-buffer `plane_addr` / `plane_size` arrays. -/
def VIDEO_MAX_PLANES : Nat := 8

/-- `MEM_TYPE_MAX` of the `mem_type_t` enum (`TYPE_MMAP = 0`, `TYPE_DMABUF = 1`,
`MEM_TYPE_MAX = 2`). -/
def MEM_TYPE_MAX : Nat := 2

/-- `capture_config` (capture.hpp, in the revision used by capture.cpp):
4-character fourcc string, dimensions, memory type tag and requested buffer
count. `mem_type` is the numeric value of the `mem_type_t` tag. -/
structure capture_config where
  fmt_fourcc : String
  width : Nat
  height : Nat
  mem_type : Nat
  buf_count : Nat

/-- The pool `m_capture_buf` (a `std::vector` of per-buffer plane arrays),
abstracted to: its length, and a mapped/unmapped flag per (buffer index,
plane index). `mapped j k = true` models `m_capture_buf[j].plane_addr[k]`
holding a live mmap mapping. -/
structure CaptureBufVec where
  len : Nat
  mapped : Nat → Nat → Bool

/-- A freshly resized pool (`m_capture_buf.resize(n)` on construction):
`n` buffers, every plane slot value-initialized, i.e. unmapped. -/
def freshPool (n : Nat) : CaptureBufVec :=
  { len := n, mapped := fun _ _ => false }

/-- `std::vector::resize(n)`: the first `min n len` buffers keep their plane
state, buffers added by growth are value-initialized (unmapped). -/
def resizePool (pool : CaptureBufVec) (n : Nat) : CaptureBufVec :=
  { len := n
    mapped := fun j k => if j < n ∧ j < pool.len then pool.mapped j k else false }

/-- The capture session state relevant to the modelled claims: whether the
device fd is open, the (mutable) config reference, and the buffer pool. -/
structure CaptureState where
  m_fd_open : Bool
  m_config : capture_config
  m_capture_buf : CaptureBufVec

/-- Write one plane flag of one buffer (an assignment to
`m_capture_buf[i].plane_addr[p]` in the source, abstracted to its
mapped/unmapped status). -/
def setPlane (pool : CaptureBufVec) (i p : Nat) (v : Bool) : CaptureBufVec :=
  { pool with mapped := fun j k => if j = i ∧ k = p then v else pool.mapped j k }

/-- Total number of currently mapped planes of the pool, counting every
buffer index below the pool length and every plane slot of the
`VIDEO_MAX_PLANES`-sized per-buffer array. -/
def mappedPlaneCount (pool : CaptureBufVec) : Nat :=
  ((List.range pool.len).map
    (fun j => ((List.range VIDEO_MAX_PLANES).filter (fun k => pool.mapped j k)).length)).sum

/-! ### checkFormatSize (capture.cpp lines 150-239) -/

/-- One `v4l2_frmsizeenum` answer: the three descriptor kinds the
`VIDIOC_ENUM_FRAMESIZES` loop distinguishes. -/
inductive frmsize where
  | discrete (w h : Nat)
  | stepwise (minW maxW stepW minH maxH stepH : Nat)
  | continuous (minW maxW minH maxH : Nat)
deriving DecidableEq

/-- The per-descriptor acceptance test of the enumeration loop body of
`Capture::checkFormatSize`: discrete requires an exact pair match; stepwise
requires each axis in `[min, max]` and `requested % step == 0` (the source
tests `w % frmsize.stepwise.step_width == 0`, the requested value itself,
not its offset from the minimum); continuous requires each axis in
`[min, max]`. -/
def frmsizeMatches (w h : Nat) : frmsize → Bool
  | frmsize.discrete dw dh => decide (w = dw ∧ h = dh)
  | frmsize.stepwise minW maxW stepW minH maxH stepH =>
      decide ((minW ≤ w ∧ w ≤ maxW ∧ w % stepW = 0) ∧
              (minH ≤ h ∧ h ≤ maxH ∧ h % stepH = 0))
  | frmsize.continuous minW maxW minH maxH =>
      decide (minW ≤ w ∧ w ≤ maxW ∧ minH ≤ h ∧ h ≤ maxH)

/-- `Capture::checkFormatSize`, with the requested `width`/`height` of
`m_config` and the device's enumerated frame-size descriptor list made
explicit. `found_sizes` stays false when the enumeration yields nothing, in
which case the function returns true ("assume all sizes are supported");
otherwise it returns whether some descriptor accepted the request. -/
def checkFormatSize (w h : Nat) (sizes : List frmsize) : Bool :=
  let found_sizes := !sizes.isEmpty
  let requested_size_ok := sizes.any (frmsizeMatches w h)
  if !found_sizes then true else requested_size_ok

/-! ### Constructor (capture.cpp lines 36-69) -/

/-- The device accesses the constructor can perform, in order. -/
inductive dev_access where
  | statDev
  | openDev
deriving DecidableEq

/-- `Capture::Capture`: stat the device path, require a character device,
open it, and only then validate the config (dimensions, memory-type tag,
buffer count, then fourcc length), finally resize the pool. `statOk`,
`isChrDev`, `openOk` are the outcomes of the device-side steps; the returned
list records which device accesses were performed before returning
(`Logger::fatal` throws, ending construction). -/
def capture_ctor (statOk isChrDev openOk : Bool) (conf : capture_config) :
    Option CaptureState × List dev_access :=
  if !statOk then (none, [dev_access.statDev])
  else if !isChrDev then (none, [dev_access.statDev])
  else if !openOk then (none, [dev_access.statDev, dev_access.openDev])
  else if conf.width = 0 ∨ conf.height = 0 ∨ MEM_TYPE_MAX ≤ conf.mem_type ∨
          conf.buf_count = 0 then
    (none, [dev_access.statDev, dev_access.openDev])
  else if conf.fmt_fourcc.length ≠ 4 then
    (none, [dev_access.statDev, dev_access.openDev])
  else
    (some { m_fd_open := true, m_config := conf,
            m_capture_buf := freshPool conf.buf_count },
     [dev_access.statDev, dev_access.openDev])

/-! ### requestBuffers (capture.cpp lines 328-363) -/

/-- `Capture::requestBuffers`: ask the driver for `m_config.buf_count`
buffers; `reqbufsOk` is the `VIDIOC_REQBUFS` outcome and `granted` the count
the driver wrote back. On a differing count the config count is overwritten
and the pool resized; the call still succeeds. -/
def requestBuffers (reqbufsOk : Bool) (granted : Nat) (s : CaptureState) :
    Bool × CaptureState :=
  if !reqbufsOk then (false, s)
  else if granted ≠ s.m_config.buf_count then
    (true, { s with
              m_config := { s.m_config with buf_count := granted }
              m_capture_buf := resizePool s.m_capture_buf granted })
  else (true, s)

/-! ### mapBuffers (capture.cpp lines 365-434) -/

/-- The inner unwind loop `for(k = 0; k < buf.length; k++)` of the mmap
failure path: munmap every still-mapped plane slot `k < pc` of buffer `j`,
ascending. -/
def munmapPlanesUpTo (pool : CaptureBufVec) (j : Nat) : Nat → CaptureBufVec
  | 0 => pool
  | Nat.succ m =>
    if (munmapPlanesUpTo pool j m).mapped j m then
      setPlane (munmapPlanesUpTo pool j m) j m false
    else munmapPlanesUpTo pool j m

/-- The outer unwind loop `for(j = 0; j <= i; j++)` of the mmap failure
path: clear the plane slots `k < pc` of every buffer index up to and
including the failing buffer `i`. -/
def unwindMappedBufs (pool : CaptureBufVec) (pc : Nat) : Nat → CaptureBufVec
  | 0 => munmapPlanesUpTo pool 0 pc
  | Nat.succ m => munmapPlanesUpTo (unwindMappedBufs pool pc m) (m + 1) pc

/-- The per-buffer plane-mapping loop `for(p = 0; p < buf.length; p++)` of
`Capture::mapBuffers` for buffer `i`: mmap each plane in `ps` in turn
(`mmapOk i p` is the outcome of the mmap call for plane `p`); on the first
failure, run the unwind loops over buffers `0..i` and planes `0..pc-1` and
report failure. -/
def mapPlanesOfBuf (mmapOk : Nat → Nat → Bool) (i pc : Nat) :
    List Nat → CaptureBufVec → Bool × CaptureBufVec
  | [], pool => (true, pool)
  | p :: ps, pool =>
    if mmapOk i p then mapPlanesOfBuf mmapOk i pc ps (setPlane pool i p true)
    else (false, unwindMappedBufs pool pc i)

/-- The buffer loop `for(i = 0; i < m_config.buf_count; i++)` of
`Capture::mapBuffers`, starting at index `a` with `n` buffers left.
`querybufOk i` is the `VIDIOC_QUERYBUF` outcome for buffer `i` (the source
returns false with no unwind on that failure); `pc` is the per-buffer plane
count (`buf.length`) the driver reports, constant across the negotiated
format's buffers. -/
def mapBufsFrom (querybufOk : Nat → Bool) (mmapOk : Nat → Nat → Bool) (pc : Nat) :
    Nat → Nat → CaptureBufVec → Bool × CaptureBufVec
  | _a, 0, pool => (true, pool)
  | a, Nat.succ n, pool =>
    if querybufOk a then
      let r := mapPlanesOfBuf mmapOk a pc (List.range pc) pool
      if r.1 then mapBufsFrom querybufOk mmapOk pc (a + 1) n r.2
      else (false, r.2)
    else (false, pool)

/-- `Capture::mapBuffers`: map the planes of the first `m_config.buf_count`
buffers of the pool. -/
def mapBuffers (querybufOk : Nat → Bool) (mmapOk : Nat → Nat → Bool) (pc : Nat)
    (s : CaptureState) : Bool × CaptureState :=
  let r := mapBufsFrom querybufOk mmapOk pc 0 s.m_config.buf_count s.m_capture_buf
  (r.1, { s with m_capture_buf := r.2 })

/-! ### queueBuffers, streamOff, stop, destructor (capture.cpp 436-586) -/

/-- The queue loop of `Capture::queueBuffers`, starting at buffer `a` with
`n` buffers left; `queued` accumulates the indices submitted with
`VIDIOC_QBUF`, and the loop stops at the first ioctl failure. -/
def queueBufsFrom (qbufOk : Nat → Bool) : Nat → Nat → List Nat → Bool × List Nat
  | _a, 0, queued => (true, queued)
  | a, Nat.succ n, queued =>
    if qbufOk a then queueBufsFrom qbufOk (a + 1) n (queued ++ [a])
    else (false, queued)

/-- `Capture::queueBuffers`: submit every buffer index below
`m_config.buf_count` to the driver, in order. -/
def queueBuffers (qbufOk : Nat → Bool) (s : CaptureState) : Bool × List Nat :=
  queueBufsFrom qbufOk 0 s.m_config.buf_count []

/-- `Capture::streamOff`: a single `VIDIOC_STREAMOFF` ioctl; it touches no
member state of the session. -/
def streamOff (streamoffOk : Bool) (s : CaptureState) : Bool × CaptureState :=
  (streamoffOk, s)

/-- `Capture::stop`: calls `streamOff` and propagates its status; nothing
else. In particular the buffer pool is untouched. -/
def Capture_stop (streamoffOk : Bool) (s : CaptureState) : Bool × CaptureState :=
  streamOff streamoffOk s

/-- `Capture::~Capture`: `close(m_fd)` only. The pool and its plane
mappings are untouched. -/
def captureDtor (s : CaptureState) : CaptureState :=
  { s with m_fd_open := false }

/-! ## Display side: data model (display.cpp / display.hpp) -/

/-- `frame_info_t` (display.hpp): frame counter, completion timestamp and
the flip-pending flag. -/
structure frame_info where
  count : Nat
  sec : Nat
  usec : Nat
  flip_pending : Bool
deriving DecidableEq

/-- The display session state relevant to the modelled claims. -/
structure DisplayState where
  m_modePropFb_id : Nat
  m_testPatern_FbId : Nat
  m_splashscreen_FbId : Nat
  m_frame : frame_info
  m_display_initialized : Bool
  testing_display : Bool
deriving DecidableEq

/-- Observable DRM driver actions of the modelled calls: framebuffer
add/remove and the two kinds of atomic commit submission (the blocking
`ALLOW_MODESET` commit of `atomicModeSet`, and the
`NONBLOCK | PAGE_FLIP_EVENT` commit of `atomicUpdate`). -/
inductive drm_effect where
  | addFb (fbId : Nat)
  | rmFb (fbId : Nat)
  | atomicCommitBlocking (fbId : Nat)
  | atomicCommitNonblocking (fbId : Nat)
deriving DecidableEq

/-- `eventCb` (display.cpp lines 699-721), the page-flip completion
callback. The kernel-delivered `sequence` is explicitly discarded
(`(void) sequence`). When the stored counter is positive the callback
computes an instantaneous refresh rate from the delta between the delivered
and the stored timestamp and overwrites the stored timestamp; on the first
invocation (counter zero) it computes no rate and leaves the stored
timestamp untouched. It always clears `flip_pending` and increments the
counter. The second component is the computed rate, `none` when no rate was
computed (float arithmetic modelled over ℚ). -/
def eventCb (sequence sec usec : Nat) (f : frame_info) : frame_info × Option ℚ :=
  if 0 < f.count then
    let old_t : ℚ := (f.sec : ℚ) + (f.usec : ℚ) / 1000000
    let curr_t : ℚ := (sec : ℚ) + (usec : ℚ) / 1000000
    let refresh_rate : ℚ := 1 / (curr_t - old_t)
    ({ count := f.count + 1, sec := sec, usec := usec, flip_pending := false },
     some refresh_rate)
  else
    ({ count := f.count + 1, sec := f.sec, usec := f.usec, flip_pending := false },
     none)

/-- Driver-side outcomes of one `Display::atomicModeSet` run: request
allocation, mode-blob creation, each property-id lookup (0 models a failed
lookup, as in the source's `!prop` tests), and the blocking commit. -/
structure mode_set_env where
  atomicAllocOk : Bool
  createBlobOk : Bool
  connCrtcPropId : Nat
  crtcModePropId : Nat
  crtcActivePropId : Nat
  planeFbPropId : Nat
  planeCrtcPropId : Nat
  srcPropsOk : Bool
  crtcPropsOk : Bool
  commitOk : Bool
deriving DecidableEq

/-- `Display::atomicModeSet` (display.cpp lines 324-430): the blocking
initial mode-set commit. All early failure paths leave `m_frame` untouched;
the `FB_ID` plane property id is stored into `m_modePropFb_id` when its
lookup runs (line 371), before the commit; on a successful commit
(`DRM_MODE_PAGE_FLIP_EVENT | DRM_MODE_ATOMIC_ALLOW_MODESET`, blocking)
`m_frame.flip_pending` is set to true (line 417). -/
def atomicModeSet (env : mode_set_env) (s : DisplayState) :
    Bool × DisplayState × List drm_effect :=
  if env.atomicAllocOk = false then (false, s, [])
  else if env.createBlobOk = false then (false, s, [])
  else if env.connCrtcPropId = 0 then (false, s, [])
  else if env.crtcModePropId = 0 ∨ env.crtcActivePropId = 0 then (false, s, [])
  else
    let s1 := { s with m_modePropFb_id := env.planeFbPropId }
    if s1.m_modePropFb_id = 0 ∨ env.planeCrtcPropId = 0 then (false, s1, [])
    else if env.srcPropsOk = false then (false, s1, [])
    else if env.crtcPropsOk = false then (false, s1, [])
    else
      let fb := if s1.testing_display then s1.m_testPatern_FbId
                else s1.m_splashscreen_FbId
      if env.commitOk = true then
        (true,
         { s1 with m_frame := { s1.m_frame with flip_pending := true } },
         [drm_effect.atomicCommitBlocking fb])
      else (false, s1, [drm_effect.atomicCommitBlocking fb])

/-- `Display::atomicUpdate` (display.cpp lines 736-775): sanity-check the
framebuffer id and the stored `FB_ID` property id, allocate an atomic
request, submit a `DRM_MODE_ATOMIC_NONBLOCK | DRM_MODE_PAGE_FLIP_EVENT`
commit (the submission happens whether or not the commit call succeeds),
and set `m_frame.flip_pending` to true only on a successful submission.
The function performs no check of `m_frame.flip_pending`. -/
def atomicUpdate (atomicAllocOk commitOk : Bool) (cam_fbId : Nat)
    (s : DisplayState) : Bool × DisplayState × List drm_effect :=
  if cam_fbId = 0 then (false, s, [])
  else if s.m_modePropFb_id = 0 then (false, s, [])
  else if !atomicAllocOk then (false, s, [])
  else if commitOk then
    (true,
     { s with m_frame := { s.m_frame with flip_pending := true } },
     [drm_effect.atomicCommitNonblocking cam_fbId])
  else (false, s, [drm_effect.atomicCommitNonblocking cam_fbId])

/-- A page-flip completion event dispatched by `drmHandleEvent` through
`m_drm_evctx.page_flip_handler = eventCb`, applied to the session's
`m_frame`. -/
def handleFlipEvent (sequence sec usec : Nat) (s : DisplayState) : DisplayState :=
  { s with m_frame := (eventCb sequence sec usec s.m_frame).1 }

/-- The code paths of display.cpp that write the frame state: the blocking
mode-set commit, the non-blocking update commit, and the completion
callback. -/
inductive display_op where
  | modeSetCommit (env : mode_set_env)
  | updateCommit (atomicAllocOk commitOk : Bool) (fbId : Nat)
  | pageFlipEvent (sequence sec usec : Nat)

/-- One step of the display session under one of the frame-state-writing
code paths. -/
def displayStep : display_op → DisplayState → DisplayState
  | display_op.modeSetCommit env, s => (atomicModeSet env s).2.1
  | display_op.updateCommit a c f, s => (atomicUpdate a c f s).2.1
  | display_op.pageFlipEvent q t u, s => handleFlipEvent q t u s

/-- Claim C3 as stated: across every step, the flip-pending flag becomes
true only under a successfully submitted `atomicUpdate`, and becomes false
only under the completion callback. -/
def flipPendingOnlyUpdateSets : Prop :=
  ∀ (s : DisplayState) (op : display_op),
    (s.m_frame.flip_pending = false →
      (displayStep op s).m_frame.flip_pending = true →
      ∃ a c f, op = display_op.updateCommit a c f ∧ (atomicUpdate a c f s).1 = true) ∧
    (s.m_frame.flip_pending = true →
      (displayStep op s).m_frame.flip_pending = false →
      ∃ q t u, op = display_op.pageFlipEvent q t u)

/-- The op is a commit-submitting call (mode set or update) that reported
success on this state. -/
def commitSubmittedSuccessfully (op : display_op) (s : DisplayState) : Prop :=
  match op with
  | display_op.modeSetCommit env => (atomicModeSet env s).1 = true
  | display_op.updateCommit a c f => (atomicUpdate a c f s).1 = true
  | display_op.pageFlipEvent _ _ _ => False

/-! ### createFbFromFd and scanout (display.cpp lines 648-697, 777-822) -/

/-- `Display::createFbFromFd`: import a DMA-BUF fd as a framebuffer.
`camFormatIsNV12` models the `m_cam_format != DRM_FORMAT_NV12` guard,
`primeOk` the `drmPrimeFDToHandle` outcome, `addFbOk` the `drmModeAddFB2`
outcome and `newFbId` the id the driver assigns (nonzero on success).
Returns the framebuffer id (0 on failure) and the driver actions
performed. -/
def createFbFromFd (primeOk addFbOk : Bool) (newFbId : Nat)
    (camFormatIsNV12 : Bool) (buf_fd : Int) : Nat × List drm_effect :=
  if buf_fd < 0 then (0, [])
  else if !camFormatIsNV12 then (0, [])
  else if !primeOk then (0, [])
  else if addFbOk then (newFbId, [drm_effect.addFb newFbId])
  else (0, [])

/-- Driver-side outcomes of one `Display::scanout` run. -/
structure scanout_env where
  primeOk : Bool
  addFbOk : Bool
  newFbId : Nat
  camFormatIsNV12 : Bool
  atomicAllocOk : Bool
  commitOk : Bool

/-- `Display::scanout` (display.cpp lines 777-822): refuse immediately when
`m_display_initialized` is false; otherwise, in testing mode, page-flip to
the test-pattern framebuffer; in camera mode, import the buffer fd as a
framebuffer, page-flip to it, and remove the framebuffer again on both the
success and the update-failure path. The effect list records the driver
actions performed. -/
def scanout (env : scanout_env) (buf_fd : Int) (s : DisplayState) :
    Bool × DisplayState × List drm_effect :=
  if !s.m_display_initialized then (false, s, [])
  else if s.testing_display then
    let r := atomicUpdate env.atomicAllocOk env.commitOk s.m_testPatern_FbId s
    (r.1, r.2.1, r.2.2)
  else
    let c := createFbFromFd env.primeOk env.addFbOk env.newFbId
               env.camFormatIsNV12 buf_fd
    if c.1 = 0 then (false, s, c.2)
    else
      let r := atomicUpdate env.atomicAllocOk env.commitOk c.1 s
      (r.1, r.2.1, c.2 ++ r.2.2 ++ [drm_effect.rmFb c.1])

/-! ### Concrete instances used by counterexamples and witnesses -/

/-- A capture config with a zero width and everything else valid. -/
def confZeroWidth : capture_config :=
  { fmt_fourcc := "NV12", width := 0, height := 1080, mem_type := 0, buf_count := 4 }

/-- A fully valid capture config with one buffer. -/
def confOneBuf : capture_config :=
  { fmt_fourcc := "NV12", width := 1920, height := 1080, mem_type := 0, buf_count := 1 }

/-- A fully valid capture config with two buffers. -/
def confTwoBuf : capture_config :=
  { fmt_fourcc := "NV12", width := 1920, height := 1080, mem_type := 0, buf_count := 2 }

/-- A fully valid capture config requesting five buffers. -/
def confFiveBuf : capture_config :=
  { fmt_fourcc := "NV12", width := 1920, height := 1080, mem_type := 0, buf_count := 5 }

/-- Capture session state as constructed from `confTwoBuf`. -/
def sTwoBuf : CaptureState :=
  { m_fd_open := true, m_config := confTwoBuf, m_capture_buf := freshPool 2 }

/-- Capture session state as constructed from `confOneBuf`. -/
def sOneBuf : CaptureState :=
  { m_fd_open := true, m_config := confOneBuf, m_capture_buf := freshPool 1 }

/-- Capture session state as constructed from `confFiveBuf`. -/
def sFiveBuf : CaptureState :=
  { m_fd_open := true, m_config := confFiveBuf, m_capture_buf := freshPool 5 }

/-- An mmap oracle that fails exactly at buffer 1, plane 1. -/
def mmapFailAt11 : Nat → Nat → Bool :=
  fun i p => !(decide (i = 1 ∧ p = 1))

/-- The one-buffer capture state after one successful mapBuffers run with a
single plane per buffer. -/
def sOneBufMapped : CaptureState :=
  (mapBuffers (fun _ => true) (fun _ _ => true) 1 sOneBuf).2

/-- A display state before initialize(): flag down, frame state at its
zero-initialized values. -/
def dispUninit : DisplayState :=
  { m_modePropFb_id := 0, m_testPatern_FbId := 0, m_splashscreen_FbId := 0
    m_frame := { count := 0, sec := 0, usec := 0, flip_pending := false }
    m_display_initialized := false, testing_display := true }

/-- A display state after a successful mode set: property id stored, test
pattern registered, flip currently pending. -/
def dispPending : DisplayState :=
  { m_modePropFb_id := 1, m_testPatern_FbId := 2, m_splashscreen_FbId := 2
    m_frame := { count := 1, sec := 100, usec := 0, flip_pending := true }
    m_display_initialized := true, testing_display := true }

/-- A mode-set driver environment in which every lookup and the commit
succeed. -/
def modeSetAllOk : mode_set_env :=
  { atomicAllocOk := true, createBlobOk := true, connCrtcPropId := 1
    crtcModePropId := 2, crtcActivePropId := 3, planeFbPropId := 4
    planeCrtcPropId := 5, srcPropsOk := true, crtcPropsOk := true
    commitOk := true }

/-- A scanout driver environment in which everything succeeds. -/
def scanoutAllOk : scanout_env :=
  { primeOk := true, addFbOk := true, newFbId := 7, camFormatIsNV12 := true
    atomicAllocOk := true, commitOk := true }

/-- A frame state as zero-initialized, before the first completion
callback, with a flip pending. -/
def frameFirst : frame_info :=
  { count := 0, sec := 3, usec := 4, flip_pending := true }

/-! ## Pointwise lemmas about the mapBuffers unwind -/

/-- Pointwise reading of a single plane-flag write. -/
theorem setPlane_mapped_eq (pool : CaptureBufVec) (i p : Nat) (v : Bool) (j k : Nat) :
    (setPlane pool i p v).mapped j k = if j = i ∧ k = p then v else pool.mapped j k := rfl

/-- A plane still mapped after the inner unwind loop was mapped before it and
is not one of the cleared slots of buffer `j`. -/
theorem munmapPlanesUpTo_mapped_true :
    ∀ (pc : Nat) (pool : CaptureBufVec) (j j2 k : Nat),
    (munmapPlanesUpTo pool j pc).mapped j2 k = true →
    pool.mapped j2 k = true ∧ ¬(j2 = j ∧ k < pc) := by
  intro pc
  induction pc with
  | zero =>
    intro pool j j2 k h
    exact ⟨h, fun hc => Nat.not_lt_zero k hc.2⟩
  | succ m ih =>
    intro pool j j2 k h
    by_cases hg : (munmapPlanesUpTo pool j m).mapped j m = true
    · simp only [munmapPlanesUpTo] at h
      rw [if_pos hg, setPlane_mapped_eq] at h
      by_cases hc : j2 = j ∧ k = m
      · rw [if_pos hc] at h
        exact absurd h (by simp)
      · rw [if_neg hc] at h
        obtain ⟨hp, hn⟩ := ih pool j j2 k h
        refine ⟨hp, ?_⟩
        rintro ⟨he, hk⟩
        have hkm : k < m ∨ k = m := by omega
        rcases hkm with hlt | heq
        · exact hn ⟨he, hlt⟩
        · exact hc ⟨he, heq⟩
    · simp only [munmapPlanesUpTo] at h
      rw [if_neg hg] at h
      obtain ⟨hp, hn⟩ := ih pool j j2 k h
      refine ⟨hp, ?_⟩
      rintro ⟨he, hk⟩
      have hkm : k < m ∨ k = m := by omega
      rcases hkm with hlt | heq
      · exact hn ⟨he, hlt⟩
      · rw [he, heq] at h
        exact hg h

/-- A plane still mapped after the full unwind was mapped before it and lies
outside the cleared rectangle (buffers `0..i`, plane slots `0..pc-1`). -/
theorem unwindMappedBufs_mapped_true :
    ∀ (i : Nat) (pool : CaptureBufVec) (pc j k : Nat),
    (unwindMappedBufs pool pc i).mapped j k = true →
    pool.mapped j k = true ∧ ¬(j ≤ i ∧ k < pc) := by
  intro i
  induction i with
  | zero =>
    intro pool pc j k h
    simp only [unwindMappedBufs] at h
    obtain ⟨hp, hn⟩ := munmapPlanesUpTo_mapped_true pc pool 0 j k h
    exact ⟨hp, fun hc => hn ⟨Nat.le_zero.mp hc.1, hc.2⟩⟩
  | succ m ih =>
    intro pool pc j k h
    simp only [unwindMappedBufs] at h
    obtain ⟨h2, hn2⟩ := munmapPlanesUpTo_mapped_true pc (unwindMappedBufs pool pc m) (m + 1) j k h
    obtain ⟨hp, hn⟩ := ih pool pc j k h2
    refine ⟨hp, ?_⟩
    rintro ⟨hle, hk⟩
    have hj : j ≤ m ∨ j = m + 1 := by omega
    rcases hj with h3 | h3
    · exact hn ⟨h3, hk⟩
    · exact hn2 ⟨h3, hk⟩

/-- Invariant of the per-buffer plane-mapping loop: starting from a pool whose
mapped planes all lie in buffers `0..i` and slots `0..pc-1`, a successful run
keeps them there, and a failing run leaves no mapped plane at all. -/
theorem mapPlanesOfBuf_inv (mok : Nat → Nat → Bool) (i pc : Nat) :
    ∀ (ps : List Nat) (pool : CaptureBufVec),
    (∀ p ∈ ps, p < pc) →
    (∀ j k, pool.mapped j k = true → j ≤ i ∧ k < pc) →
    (((mapPlanesOfBuf mok i pc ps pool).1 = true →
        ∀ j k, (mapPlanesOfBuf mok i pc ps pool).2.mapped j k = true → j ≤ i ∧ k < pc) ∧
     ((mapPlanesOfBuf mok i pc ps pool).1 = false →
        ∀ j k, (mapPlanesOfBuf mok i pc ps pool).2.mapped j k = false)) := by
  intro ps
  induction ps with
  | nil =>
    intro pool _hps hinv
    refine ⟨fun _ j k h => hinv j k h, fun h => ?_⟩
    simp [mapPlanesOfBuf] at h
  | cons p ps ih =>
    intro pool hps hinv
    by_cases hm : mok i p = true
    · simp only [mapPlanesOfBuf]
      rw [if_pos hm]
      apply ih
      · intro q hq
        exact hps q (List.mem_cons_of_mem p hq)
      · intro j k h
        rw [setPlane_mapped_eq] at h
        by_cases hc : j = i ∧ k = p
        · exact ⟨le_of_eq hc.1, hc.2 ▸ hps p (List.mem_cons_self p ps)⟩
        · rw [if_neg hc] at h
          exact hinv j k h
    · simp only [mapPlanesOfBuf]
      rw [if_neg hm]
      refine ⟨fun h => absurd h (by simp), fun _ j k => ?_⟩
      cases hmap : (unwindMappedBufs pool pc i).mapped j k with
      | false => rfl
      | true =>
        obtain ⟨hp, hn⟩ := unwindMappedBufs_mapped_true i pool pc j k hmap
        exact absurd (hinv j k hp) hn

/-- The buffer loop of mapBuffers, run over buffers `a..a+n-1` on a pool whose
mapped planes all lie strictly below buffer `a`: when `VIDIOC_QUERYBUF`
succeeds on every visited buffer and the loop reports failure, no plane of
the resulting pool is mapped. -/
theorem mapBufsFrom_clears (qok : Nat → Bool) (mok : Nat → Nat → Bool) (pc : Nat) :
    ∀ (n a : Nat) (pool : CaptureBufVec),
    (∀ m, a ≤ m → m < a + n → qok m = true) →
    (∀ j k, pool.mapped j k = true → j < a ∧ k < pc) →
    (mapBufsFrom qok mok pc a n pool).1 = false →
    ∀ j k, (mapBufsFrom qok mok pc a n pool).2.mapped j k = false := by
  intro n
  induction n with
  | zero =>
    intro a pool _ _ hfail
    simp [mapBufsFrom] at hfail
  | succ n ih =>
    intro a pool hq hinv hfail
    have hqa : qok a = true := hq a le_rfl (by omega)
    have hinvle : ∀ j k, pool.mapped j k = true → j ≤ a ∧ k < pc :=
      fun j k h => ⟨Nat.le_of_lt (hinv j k h).1, (hinv j k h).2⟩
    have hps : ∀ p ∈ List.range pc, p < pc := fun p hp => List.mem_range.mp hp
    obtain ⟨hgood, hbad⟩ := mapPlanesOfBuf_inv mok a pc (List.range pc) pool hps hinvle
    simp only [mapBufsFrom] at hfail ⊢
    rw [if_pos hqa] at hfail ⊢
    rcases Bool.eq_false_or_eq_true ((mapPlanesOfBuf mok a pc (List.range pc) pool).1) with hr | hr
    · rw [if_pos hr] at hfail ⊢
      exact ih (a + 1) _ (fun m h1 h2 => hq m (by omega) (by omega))
        (fun j k h => by
          obtain ⟨hle, hk⟩ := hgood hr j k h
          exact ⟨by omega, hk⟩)
        hfail
    · rw [if_neg (by simp [hr])] at hfail ⊢
      intro j k
      exact hbad hr j k

/-- A pool with no mapped plane has mapped-plane count zero. -/
theorem mappedPlaneCount_eq_zero (pool : CaptureBufVec)
    (h : ∀ j k, pool.mapped j k = false) : mappedPlaneCount pool = 0 := by
  unfold mappedPlaneCount
  apply List.sum_eq_zero
  intro x hx
  simp only [List.mem_map] at hx
  obtain ⟨j, _, rfl⟩ := hx
  rw [List.length_eq_zero]
  rw [List.filter_eq_nil_iff]
  intro k _
  simp [h j k]

/-- The per-buffer plane-mapping loop succeeds when every mmap of the visited
planes succeeds. -/
theorem mapPlanesOfBuf_ok (mok : Nat → Nat → Bool) (i pc : Nat) :
    ∀ (ps : List Nat) (pool : CaptureBufVec),
    (∀ p ∈ ps, mok i p = true) →
    (mapPlanesOfBuf mok i pc ps pool).1 = true := by
  intro ps
  induction ps with
  | nil => intro pool _; rfl
  | cons p ps ih =>
    intro pool hok
    simp only [mapPlanesOfBuf]
    rw [if_pos (hok p (List.mem_cons_self p ps))]
    exact ih _ (fun q hq => hok q (List.mem_cons_of_mem p hq))

/-- The buffer loop of mapBuffers succeeds when every query and every mmap of
the visited buffers succeeds. -/
theorem mapBufsFrom_ok (qok : Nat → Bool) (mok : Nat → Nat → Bool) (pc : Nat) :
    ∀ (n a : Nat) (pool : CaptureBufVec),
    (∀ m, a ≤ m → m < a + n → qok m = true) →
    (∀ m p, a ≤ m → m < a + n → mok m p = true) →
    (mapBufsFrom qok mok pc a n pool).1 = true := by
  intro n
  induction n with
  | zero => intro a pool _ _; rfl
  | succ n ih =>
    intro a pool hq hm
    simp only [mapBufsFrom]
    rw [if_pos (hq a le_rfl (by omega))]
    rw [if_pos (mapPlanesOfBuf_ok mok a pc (List.range pc) pool
      (fun p _ => hm a p le_rfl (by omega)))]
    exact ih (a + 1) _ (fun m h1 h2 => hq m (by omega) (by omega))
      (fun m p h1 h2 => hm m p (by omega) (by omega))

/-- The queue loop submits exactly the indices `a .. a+n-1`, in order, when
every `VIDIOC_QBUF` succeeds. -/
theorem queueBufsFrom_all_ok (qbufOk : Nat → Bool) (hall : ∀ m, qbufOk m = true) :
    ∀ (n a : Nat) (acc : List Nat),
    queueBufsFrom qbufOk a n acc = (true, acc ++ List.range' a n) := by
  intro n
  induction n with
  | zero =>
    intro a acc
    simp [queueBufsFrom]
  | succ n ih =>
    intro a acc
    simp only [queueBufsFrom]
    rw [if_pos (hall a)]
    rw [ih (a + 1) (acc ++ [a])]
    rw [List.range'_succ]
    simp

/-! ## Claim theorems: capture side -/

/-- C1 counterexample: at requested size 5x1 and the single stepwise
descriptor width [3,10,2], height [1,10,1], the claimed acceptance
condition `min ≤ requested ≤ max` and `(requested - min) % step = 0` holds
on both axes, yet `checkFormatSize` rejects (the source requires
`requested % step == 0`, and `5 % 2 ≠ 0`). -/
theorem checkFormatSize_stepwise_offset_cex :
    ¬(checkFormatSize 5 1 [frmsize.stepwise 3 10 2 1 10 1] = true ↔
      ((3 ≤ 5 ∧ 5 ≤ 10 ∧ (5 - 3) % 2 = 0) ∧ (1 ≤ 1 ∧ 1 ≤ 10 ∧ (1 - 1) % 1 = 0))) := by
  decide

/-- C1 (amended): for a single stepwise descriptor with positive steps,
`checkFormatSize` accepts iff, independently per axis, the requested value
lies in `[min, max]` and is an exact multiple of the step (`requested % step
= 0`, not `(requested - min) % step = 0`). -/
theorem checkFormatSize_stepwise_spec
    (w h minW maxW stepW minH maxH stepH : Nat)
    (hsw : 0 < stepW) (hsh : 0 < stepH) :
    checkFormatSize w h [frmsize.stepwise minW maxW stepW minH maxH stepH] = true ↔
    ((minW ≤ w ∧ w ≤ maxW ∧ w % stepW = 0) ∧
     (minH ≤ h ∧ h ≤ maxH ∧ h % stepH = 0)) := by
  simp [checkFormatSize, frmsizeMatches]

/-- Witness for C1's amended theorem at 1920x1080 against a stepwise
descriptor width [640,1920,16], height [480,1080,8]. -/
theorem checkFormatSize_stepwise_spec_w :
    checkFormatSize 1920 1080 [frmsize.stepwise 640 1920 16 480 1080 8] = true ↔
    ((640 ≤ 1920 ∧ 1920 ≤ 1920 ∧ 1920 % 16 = 0) ∧
     (480 ≤ 1080 ∧ 1080 ≤ 1080 ∧ 1080 % 8 = 0)) :=
  checkFormatSize_stepwise_spec 1920 1080 640 1920 16 480 1080 8
    (by decide) (by decide)

/-- C9: when the device reports no frame sizes at all, `checkFormatSize`
accepts every requested width and height. -/
theorem checkFormatSize_empty_accepts (w h : Nat) :
    checkFormatSize w h [] = true := rfl

/-- C2: when the buffer queries succeed and `mapBuffers` fails (so the
failure is an injected per-plane mmap failure), the pool it leaves behind,
starting from the fully unmapped pool the constructor built, has exactly 0
mapped planes: every plane of every earlier buffer and every already-mapped
plane of the failing buffer was unmapped before the failure return. -/
theorem mapBuffers_failure_unwinds_all
    (querybufOk : Nat → Bool) (mmapOk : Nat → Nat → Bool) (pc : Nat)
    (s : CaptureState)
    (hfresh : ∀ j k, s.m_capture_buf.mapped j k = false)
    (hq : ∀ i, i < s.m_config.buf_count → querybufOk i = true)
    (hfail : (mapBuffers querybufOk mmapOk pc s).1 = false) :
    mappedPlaneCount (mapBuffers querybufOk mmapOk pc s).2.m_capture_buf = 0 := by
  apply mappedPlaneCount_eq_zero
  apply mapBufsFrom_clears querybufOk mmapOk pc s.m_config.buf_count 0 s.m_capture_buf
  · intro m _ hm
    exact hq m (by omega)
  · intro j k h
    rw [hfresh j k] at h
    exact absurd h (by simp)
  · exact hfail

/-- Witness for C2: two buffers of two planes each, with the mmap of buffer
1, plane 1 failing; the run fails and leaves 0 mapped planes. -/
theorem mapBuffers_failure_unwinds_all_w :
    mappedPlaneCount
      (mapBuffers (fun _ => true) mmapFailAt11 2 sTwoBuf).2.m_capture_buf = 0 :=
  mapBuffers_failure_unwinds_all (fun _ => true) mmapFailAt11 2 sTwoBuf
    (fun _ _ => rfl) (fun _ _ => rfl) (by decide)

/-- C7 counterexample: with a config whose width is zero (and a valid
device), construction fails, but the device was opened before the failure —
the config-validation failure does not happen before device I/O. -/
theorem capture_ctor_opens_before_config_check_cex :
    (capture_ctor true true true confZeroWidth).1.isNone = true ∧
    dev_access.openDev ∈ (capture_ctor true true true confZeroWidth).2 := by
  decide

/-- C7 (amended): for every invalid config (zero dimension, out-of-range
memory-type tag, zero buffer count, or fourcc length other than 4), and a
device path that stats and opens as a character device, construction fails
with the config error, but only after the device has been stat'ed and
opened: device I/O precedes config validation. -/
theorem capture_ctor_config_error_after_open
    (conf : capture_config)
    (hbad : (conf.width = 0 ∨ conf.height = 0 ∨ MEM_TYPE_MAX ≤ conf.mem_type ∨
             conf.buf_count = 0) ∨ conf.fmt_fourcc.length ≠ 4) :
    capture_ctor true true true conf =
      (none, [dev_access.statDev, dev_access.openDev]) := by
  simp only [capture_ctor, Bool.not_true, Bool.false_eq_true, if_false]
  split_ifs with h1 h2
  · rfl
  · rfl
  · exact absurd hbad (by tauto)

/-- Witness for C7's amended theorem at the zero-width config. -/
theorem capture_ctor_config_error_after_open_w :
    capture_ctor true true true confZeroWidth =
      (none, [dev_access.statDev, dev_access.openDev]) :=
  capture_ctor_config_error_after_open confZeroWidth (Or.inl (Or.inl rfl))

/-- C6 evaluated at a concrete session (one buffer, one plane, successful
mapBuffers): `stop()` succeeds and the destructor runs, yet the mapped-plane
count stays 1 — neither `Capture::stop` (a lone `VIDIOC_STREAMOFF`) nor
`Capture::~Capture` (a lone `close(m_fd)`) unmaps any plane, contradicting
the specified lifecycle that mappings are destroyed during stop() or the
destructor. -/
theorem stop_and_dtor_do_not_unmap :
    (mapBuffers (fun _ => true) (fun _ _ => true) 1 sOneBuf).1 = true ∧
    mappedPlaneCount sOneBufMapped.m_capture_buf = 1 ∧
    (Capture_stop true sOneBufMapped).1 = true ∧
    mappedPlaneCount (Capture_stop true sOneBufMapped).2.m_capture_buf = 1 ∧
    mappedPlaneCount (captureDtor sOneBufMapped).m_capture_buf = 1 := by
  decide

/-- C8: when the driver grants fewer buffers than requested, requestBuffers
still succeeds, the stored config count and the pool length become the
granted count, a subsequent mapBuffers whose oracles succeed on exactly the
granted indices succeeds (no buffer beyond the granted count is visited),
and queueBuffers submits exactly the granted indices. -/
theorem requestBuffers_driver_adjusts
    (conf : capture_config) (granted : Nat)
    (querybufOk : Nat → Bool) (mmapOk : Nat → Nat → Bool) (pc : Nat)
    (hlt : granted < conf.buf_count)
    (hq : ∀ i, i < granted → querybufOk i = true)
    (hm : ∀ i p, i < granted → mmapOk i p = true) :
    let s : CaptureState :=
      { m_fd_open := true, m_config := conf, m_capture_buf := freshPool conf.buf_count }
    let r := requestBuffers true granted s
    r.1 = true ∧
    r.2.m_config.buf_count = granted ∧
    r.2.m_capture_buf.len = granted ∧
    (mapBuffers querybufOk mmapOk pc r.2).1 = true ∧
    queueBuffers (fun _ => true) r.2 = (true, List.range granted) := by
  intro s r
  have hne : granted ≠ conf.buf_count := Nat.ne_of_lt hlt
  have hr : r = (true, { s with
      m_config := { s.m_config with buf_count := granted }
      m_capture_buf := resizePool s.m_capture_buf granted }) := by
    simp only [r, requestBuffers, Bool.not_true, Bool.false_eq_true, if_false]
    rw [if_pos hne]
  rw [hr]
  refine ⟨rfl, rfl, rfl, ?_, ?_⟩
  · exact mapBufsFrom_ok querybufOk mmapOk pc granted 0 _
      (fun m h1 h2 => hq m (by omega)) (fun m p h1 h2 => hm m p (by omega))
  · show queueBufsFrom (fun _ => true) 0 granted [] = (true, List.range granted)
    rw [queueBufsFrom_all_ok (fun _ => true) (fun _ => rfl) granted 0 []]
    rw [List.range_eq_range']
    simp

/-- Witness for C8: requesting 5 buffers, driver grants 3; the pool and the
count become 3, mapBuffers (two planes) succeeds and queueBuffers queues
exactly buffers 0, 1, 2. -/
theorem requestBuffers_driver_adjusts_w :
    let s : CaptureState :=
      { m_fd_open := true, m_config := confFiveBuf,
        m_capture_buf := freshPool confFiveBuf.buf_count }
    let r := requestBuffers true 3 s
    r.1 = true ∧
    r.2.m_config.buf_count = 3 ∧
    r.2.m_capture_buf.len = 3 ∧
    (mapBuffers (fun _ => true) (fun _ _ => true) 2 r.2).1 = true ∧
    queueBuffers (fun _ => true) r.2 = (true, List.range 3) :=
  requestBuffers_driver_adjusts confFiveBuf 3 (fun _ => true) (fun _ _ => true) 2
    (by decide) (fun _ _ => rfl) (fun _ _ _ => rfl)

/-! ## Claim theorems: display side -/

/-- Case analysis of `atomicModeSet`: either it reports success and the
frame state is the input frame with flip-pending raised, or it reports
failure and the frame state is untouched. -/
theorem atomicModeSet_frame_cases (env : mode_set_env) (s : DisplayState) :
    ((atomicModeSet env s).1 = true ∧
       (atomicModeSet env s).2.1.m_frame = { s.m_frame with flip_pending := true }) ∨
    ((atomicModeSet env s).1 = false ∧
       (atomicModeSet env s).2.1.m_frame = s.m_frame) := by
  unfold atomicModeSet
  split_ifs <;> simp_all
  split_ifs <;> simp_all

/-- C3 counterexample: the claim that flip-pending becomes true only under a
successfully submitted `atomicUpdate` is false — from a state with the flag
down, a fully successful blocking `atomicModeSet` commit also raises it
(display.cpp line 417). -/
theorem flip_pending_set_by_modeset_cex : ¬flipPendingOnlyUpdateSets := by
  intro hcl
  obtain ⟨h1, _⟩ := hcl dispUninit (display_op.modeSetCommit modeSetAllOk)
  obtain ⟨a, c, f, heq, _⟩ := h1 rfl (by decide)
  exact display_op.noConfusion heq

/-- C3 (amended): across the three frame-state-writing code paths of
display.cpp, the flip-pending flag goes false to true only under a commit
submission (`atomicModeSet` or `atomicUpdate`) that reported success, and
goes true to false only under the page-flip completion callback. -/
theorem flip_pending_transition_paths (s : DisplayState) (op : display_op) :
    (s.m_frame.flip_pending = false →
      (displayStep op s).m_frame.flip_pending = true →
      commitSubmittedSuccessfully op s) ∧
    (s.m_frame.flip_pending = true →
      (displayStep op s).m_frame.flip_pending = false →
      ∃ q t u, op = display_op.pageFlipEvent q t u) := by
  cases op with
  | modeSetCommit env =>
    constructor
    · intro h1 h2
      simp only [displayStep] at h2
      rcases atomicModeSet_frame_cases env s with ⟨hok, _⟩ | ⟨_, hfr⟩
      · simpa [commitSubmittedSuccessfully] using hok
      · rw [hfr, h1] at h2
        exact absurd h2 (by simp)
    · intro h1 h2
      exfalso
      simp only [displayStep] at h2
      rcases atomicModeSet_frame_cases env s with ⟨_, hfr⟩ | ⟨_, hfr⟩
      · rw [hfr] at h2
        simp at h2
      · rw [hfr, h1] at h2
        exact absurd h2 (by simp)
  | updateCommit a c f =>
    constructor
    · intro h1 h2
      simp only [displayStep, commitSubmittedSuccessfully] at h2 ⊢
      unfold atomicUpdate at h2 ⊢
      split_ifs at h2 ⊢ <;> simp_all
    · intro h1 h2
      exfalso
      simp only [displayStep] at h2
      unfold atomicUpdate at h2
      split_ifs at h2 <;> simp_all
  | pageFlipEvent q t u =>
    constructor
    · intro h1 h2
      exfalso
      simp only [displayStep, handleFlipEvent, eventCb] at h2
      split_ifs at h2 <;> simp_all
    · intro _ _
      exact ⟨q, t, u, rfl⟩

/-- C4 counterexample: with the flip-pending flag raised, a valid fb id and
a stored FB_ID property id, `atomicUpdate` is not rejected — it submits a
new non-blocking atomic commit and returns success (the source never reads
`m_frame.flip_pending`). -/
theorem atomicUpdate_submits_while_pending_cex :
    dispPending.m_frame.flip_pending = true ∧
    (atomicUpdate true true 5 dispPending).1 = true ∧
    (atomicUpdate true true 5 dispPending).2.2 =
      [drm_effect.atomicCommitNonblocking 5] := by
  decide

/-- C4 (amended): `atomicUpdate` performs no flip-pending check: called
while the flag is true, with a nonzero fb id, a stored FB_ID property id
and a successful request allocation, it submits a non-blocking atomic
commit and returns the commit's own status; the guard against overlapping
flips lives in the caller (the main loop polls `flipPending()` before
calling `scanout`). -/
theorem atomicUpdate_ignores_flip_pending
    (atomicAllocOk commitOk : Bool) (cam_fbId : Nat) (s : DisplayState)
    (hpend : s.m_frame.flip_pending = true)
    (hfb : cam_fbId ≠ 0) (hprop : s.m_modePropFb_id ≠ 0)
    (halloc : atomicAllocOk = true) :
    (atomicUpdate atomicAllocOk commitOk cam_fbId s).2.2 =
      [drm_effect.atomicCommitNonblocking cam_fbId] ∧
    (atomicUpdate atomicAllocOk commitOk cam_fbId s).1 = commitOk := by
  unfold atomicUpdate
  rw [if_neg hfb, if_neg hprop, halloc]
  cases commitOk <;> simp

/-- Witness for C4's amended theorem: while a flip is pending, the update
for fb id 5 submits the commit and succeeds. -/
theorem atomicUpdate_ignores_flip_pending_w :
    (atomicUpdate true true 5 dispPending).2.2 =
      [drm_effect.atomicCommitNonblocking 5] ∧
    (atomicUpdate true true 5 dispPending).1 = true :=
  atomicUpdate_ignores_flip_pending true true 5 dispPending rfl
    (by decide) (by decide) rfl

/-- C5 counterexample: on the first invocation (stored counter zero) the
callback neither stores the kernel-delivered sequence number into the
counter (it self-increments: `(void) sequence`, `f->count++`) nor stores
the delivered timestamp (the stores sit inside the `f->count > 0` branch),
refuting the claim that every invocation updates both to the delivered
values. -/
theorem eventCb_first_invocation_cex :
    ¬((eventCb 7 10 20 frameFirst).1.count = 7 ∧
      (eventCb 7 10 20 frameFirst).1.sec = 10) := by
  decide

/-- C5 (amended): every invocation of the completion callback clears
flip-pending and increments the stored counter by one (the kernel sequence
is discarded); an invocation with a positive stored counter stores the
delivered timestamp and computes the instantaneous rate from the delta
against the previously stored timestamp; the first invocation (counter
zero) computes no rate and also leaves the stored timestamp unchanged. -/
theorem eventCb_spec (sequence sec usec : Nat) (f : frame_info) :
    (eventCb sequence sec usec f).1.flip_pending = false ∧
    (eventCb sequence sec usec f).1.count = f.count + 1 ∧
    (0 < f.count →
      (eventCb sequence sec usec f).1.sec = sec ∧
      (eventCb sequence sec usec f).1.usec = usec ∧
      (eventCb sequence sec usec f).2 =
        some (1 / (((sec : ℚ) + (usec : ℚ) / 1000000) -
                   ((f.sec : ℚ) + (f.usec : ℚ) / 1000000)))) ∧
    (f.count = 0 →
      (eventCb sequence sec usec f).1.sec = f.sec ∧
      (eventCb sequence sec usec f).1.usec = f.usec ∧
      (eventCb sequence sec usec f).2 = none) := by
  unfold eventCb
  by_cases h : 0 < f.count
  · rw [if_pos h]
    refine ⟨rfl, rfl, fun _ => ⟨rfl, rfl, rfl⟩, fun hz => absurd hz (by omega)⟩
  · rw [if_neg h]
    refine ⟨rfl, rfl, fun hp => absurd hp h, fun _ => ⟨rfl, rfl, rfl⟩⟩

/-- C10: calling `scanout` before `initialize()` has succeeded (the
`m_display_initialized` flag is still false) returns false, leaves the whole
session state — in particular the frame state — unchanged, and performs no
driver action: no framebuffer is created and no atomic commit is
submitted. -/
theorem scanout_requires_initialize
    (env : scanout_env) (buf_fd : Int) (s : DisplayState)
    (h : s.m_display_initialized = false) :
    scanout env buf_fd s = (false, s, []) := by
  unfold scanout
  rw [h]
  simp

/-- Witness for C10 at the uninitialized display state. -/
theorem scanout_requires_initialize_w :
    scanout scanoutAllOk 0 dispUninit = (false, dispUninit, []) :=
  scanout_requires_initialize scanoutAllOk 0 dispUninit rfl
